import Mathlib

/-!
Verification of the account-ledger service (tRPC account router and its
validation helpers) against its natural-language specification.

The embedding below is a shallow model of `server/routers/account.ts`
(`createAccount`, `getAccounts`, `fundAccount`, `getTransactions`) and
`lib/utils/validation.ts` (`isValidLuhn`).  The persistent store is modelled
as an explicit state value (lists of accounts and transactions); store
queries (`find?`, filtering, ordering) mirror the SQL the code issues.
Monetary values travel through the code as JavaScript numbers holding dollar
amounts; the model represents those numeric values exactly as rationals, so
that representation-level facts (e.g. fractional dollar amounts being
persisted) are visible.  Fallible store responses are modelled explicitly as
`Option` inputs where the code's control flow branches on them.
-/

namespace Ledger

/-! ## Card validation (lib/utils/validation.ts) -/

/-- Card-number validation from lib/utils/validation.ts: strip every
non-digit character (the code's replace of the non-digit class with the
empty string). -/
def stripNonDigits (s : String) : List Char :=
  s.data.filter Char.isDigit

/-- Luhn doubling step: double the digit and subtract 9 when the result
exceeds 9 (lines 14-19 of validation.ts). -/
def luhnDouble (d : Nat) : Nat :=
  let x := 2 * d
  if x > 9 then x - 9 else x

/-- The loop of isValidLuhn, walking the digit list from the rightmost
digit with the doubling flag starting false; here the list is given
right-to-left (the reverse of the digit string). -/
def luhnSumAux : List Nat → Bool → Nat
  | [], _ => 0
  | d :: ds, dbl => (if dbl then luhnDouble d else d) + luhnSumAux ds (!dbl)

/-- isValidLuhn from lib/utils/validation.ts: strip non-digits, compute the
Luhn-weighted sum right-to-left, and accept exactly when the sum is 0 mod
10. -/
def isValidLuhn (s : String) : Bool :=
  let digits := (stripNonDigits s).map (fun c => c.toNat - '0'.toNat)
  (luhnSumAux digits.reverse false) % 10 == 0

/-! ## Data model (accounts, transactions, store state) -/

/-- Account type enum from the router input schema: checking or savings. -/
inductive AccountType
  | checking
  | savings
deriving DecidableEq

/-- Display string of an account type, used in the duplicate-account
conflict message. -/
def AccountType.str : AccountType → String
  | .checking => "checking"
  | .savings => "savings"

/-- Account status: funding requires active. -/
inductive AccountStatus
  | active
  | inactive
deriving DecidableEq

/-- A persisted account row (accounts table). Balance is the numeric value
the store holds; the code writes dollar amounts into it. -/
structure Account where
  id : Nat
  userId : Nat
  accountNumber : String
  accountType : AccountType
  balance : ℚ
  status : AccountStatus
deriving DecidableEq

/-- A persisted transaction row (transactions table).  `createdAt` is the
store timestamp (ISO string in the code, modelled as a linearly ordered
tick); `id` is assigned monotonically by the store. -/
structure Txn where
  id : Nat
  accountId : Nat
  type : String
  amount : ℚ
  description : String
  status : String
  createdAt : Nat
deriving DecidableEq

/-- Store state: the two tables plus the next transaction rowid. -/
structure DB where
  accounts : List Account
  transactions : List Txn
  nextTxnId : Nat
deriving DecidableEq

/-! ## Errors -/

/-- TRPC error codes the router produces. -/
inductive ErrCode
  | CONFLICT
  | NOT_FOUND
  | BAD_REQUEST
  | INTERNAL_SERVER_ERROR
deriving DecidableEq

/-- A raw store (SQLite driver) error with its code and message, as caught
in the createAccount retry loop. -/
structure DbError where
  code : String
  message : String
deriving DecidableEq

/-- What an operation can throw: a TRPCError built by the router, or a raw
store error rethrown as-is (createAccount line 65). -/
inductive Failure
  | trpc (code : ErrCode) (message : String)
  | db (e : DbError)
deriving DecidableEq

/-! ## createAccount (router lines 17-87) -/

/-- Model of the JavaScript substring test `message.includes(pat)` for a
non-empty pattern. -/
def includesSub (s pat : String) : Bool :=
  (s.splitOn pat).length != 1

/-- The retry classification at line 60: a caught insert error counts as a
uniqueness-constraint violation when its code is SQLITE_CONSTRAINT_UNIQUE or
its message contains "UNIQUE constraint failed". -/
def isUniqueViolation (e : DbError) : Bool :=
  e.code == "SQLITE_CONSTRAINT_UNIQUE" || includesSub e.message "UNIQUE constraint failed"

/-- Outcome of one attempted insert into the accounts table. -/
inductive InsertOutcome
  | ok
  | err (e : DbError)
deriving DecidableEq

/-- Whether an insert outcome is a caught uniqueness violation (the retry
branch of the loop). -/
def isUniqOut : InsertOutcome → Bool
  | .ok => false
  | .err e => isUniqueViolation e

/-- Result of the optimistic creation loop. -/
inductive LoopResult
  | created (accountNumber : String) (attempts : Nat)
  | exhausted
  | failed (e : DbError)
deriving DecidableEq

/-- MAX_RETRIES from line 41. -/
def MAX_RETRIES : Nat := 5

/-- The while-loop of createAccount (lines 44-67): at each live iteration
the attempt index equals the number of collisions so far (`retries`), and
`fuel = MAX_RETRIES - retries`.  `ins` gives the store's outcome for each
insert attempt and `gen` the account number generated on that attempt. -/
def createLoopAux (ins : Nat → InsertOutcome) (gen : Nat → String) :
    Nat → Nat → LoopResult
  | _, 0 => .exhausted
  | attempt, fuel + 1 =>
    match ins attempt with
    | .ok => .created (gen attempt) (attempt + 1)
    | .err e =>
      if isUniqueViolation e then createLoopAux ins gen (attempt + 1) fuel
      else .failed e

/-- The full optimistic creation loop, starting from retries = 0. -/
def createLoop (ins : Nat → InsertOutcome) (gen : Nat → String) : LoopResult :=
  createLoopAux ins gen 0 MAX_RETRIES

/-- The confirmatory re-read after account creation (lines 77-86): a missing
row surfaces as INTERNAL_SERVER_ERROR, otherwise the persisted row is
returned. -/
def createReadBack (reread : Option Account) : Except Failure Account :=
  match reread with
  | none => .error (.trpc .INTERNAL_SERVER_ERROR "Account created but failed to retrieve details")
  | some a => .ok a

/-- createAccount (lines 23-87).  `existing` is the result of the
one-account-per-(user,type) lookup; `ins` and `gen` model the store insert
outcomes and the generated identifiers per attempt; `reread` models the
select-by-accountNumber confirmatory read. -/
def createAccount (accountType : AccountType) (existing : Option Account)
    (ins : Nat → InsertOutcome) (gen : Nat → String)
    (reread : String → Option Account) : Except Failure Account :=
  match existing with
  | some _ => .error (.trpc .CONFLICT ("You already have a " ++ accountType.str ++ " account"))
  | none =>
    match createLoop ins gen with
    | .failed e => .error (.db e)
    | .exhausted => .error (.trpc .INTERNAL_SERVER_ERROR
        "Failed to generate a unique account number. Please try again.")
    | .created num _ => createReadBack (reread num)

/-! ## fundAccount (router lines 95-194) -/

/-- Funding source type from the input schema. -/
inductive FundingType
  | card
  | bank
deriving DecidableEq

/-- Display string of a funding source type, used in the transaction
description "Funding from ...". -/
def FundingType.str : FundingType → String
  | .card => "card"
  | .bank => "bank"

/-- The ownership lookup used by fundAccount and getTransactions: the first
account matching both the requested id and the caller's user id. -/
def findOwned (db : DB) (accountId userId : Nat) : Option Account :=
  db.accounts.find? (fun a => a.id == accountId && a.userId == userId)

/-- The post-update re-read of fundAccount (lines 175-179), which selects by
account id only. -/
def findById (db : DB) (accountId : Nat) : Option Account :=
  db.accounts.find? (fun a => a.id == accountId)

/-- One step of the ORDER BY created_at DESC LIMIT 1 query: keep the row
with the strictly larger timestamp; on a timestamp tie the earlier-scanned
row is kept (the store does not specify tie order; this models one stable
scan). -/
def pickRecent (acc : Option Txn) (t : Txn) : Option Txn :=
  match acc with
  | none => some t
  | some b => if b.createdAt < t.createdAt then some t else some b

/-- The "most recent transaction" query of fundAccount (lines 182-188):
first row of the account's transactions ordered by created_at descending,
limit 1. -/
def mostRecentTxn (ts : List Txn) : Option Txn :=
  ts.foldl pickRecent none

/-- What fundAccount returns (lines 190-193).  When the post-update re-read
found no row, the code falls back to a literal 0 balance
(`updatedAccount?.balance ?? 0`) and still reports success. -/
structure FundResult where
  transaction : Option Txn
  newBalance : ℚ
deriving DecidableEq

/-- The return step of fundAccount (lines 190-193): unconditionally a
success value, with newBalance defaulted to 0 when the re-read produced no
account row (`updatedAccount?.balance ?? 0`), and the fetched most-recent
transaction passed through as-is. -/
def fundReturn (updatedAccount : Option Account) (transaction : Option Txn) :
    Except Failure FundResult :=
  .ok { transaction := transaction, newBalance := (updatedAccount.map Account.balance).getD 0 }

/-- The transaction row fundAccount inserts (lines 155-163): next store id,
deposit of the given amount, description built from the funding source,
completed, stamped with the current time. -/
def mkDepositTxn (db : DB) (accountId : Nat) (amount : ℚ) (src : FundingType)
    (now : Nat) : Txn :=
  { id := db.nextTxnId
    accountId := accountId
    type := "deposit"
    amount := amount
    description := "Funding from " ++ src.str
    status := "completed"
    createdAt := now }

/-- The mutation body of fundAccount (lines 130-194) over the store state:
ownership lookup (NOT_FOUND on miss), active check (BAD_REQUEST), insert the
transaction row, atomic increment balance = balance + amount on rows with
the account id, re-read by id, fetch the most recent transaction of the
account, and return both. -/
def fundAccount (db : DB) (callerId accountId : Nat) (amount : ℚ)
    (src : FundingType) (now : Nat) : Except Failure (DB × FundResult) :=
  match findOwned db accountId callerId with
  | none => .error (.trpc .NOT_FOUND "Account not found")
  | some account =>
    if account.status ≠ .active then
      .error (.trpc .BAD_REQUEST "Account is not active")
    else
      let t := mkDepositTxn db accountId amount src now
      let db1 : DB :=
        { db with transactions := db.transactions ++ [t], nextTxnId := db.nextTxnId + 1 }
      let db2 : DB :=
        { db1 with accounts := db1.accounts.map (fun a =>
            if a.id == accountId then { a with balance := a.balance + amount } else a) }
      let updated := findById db2 accountId
      let recent := mostRecentTxn (db2.transactions.filter (fun u => u.accountId == accountId))
      (fundReturn updated recent).map (fun r => (db2, r))

/-! ## getTransactions (router lines 196-229) -/

/-- The ORDER BY (created_at DESC, id DESC) comparator of getTransactions
line 221: t sorts before u when t has the strictly larger timestamp, or an
equal timestamp and the larger (or equal) id. -/
def txnBefore (t u : Txn) : Prop :=
  u.createdAt < t.createdAt ∨ (u.createdAt = t.createdAt ∧ u.id ≤ t.id)

instance : DecidableRel txnBefore := fun t u => by
  unfold txnBefore; infer_instance

instance : IsTotal Txn txnBefore := by
  constructor; intro a b; unfold txnBefore; omega

instance : IsTrans Txn txnBefore := by
  constructor; intro a b c; unfold txnBefore; omega

/-- getTransactions (lines 202-229): ownership lookup (NOT_FOUND on miss),
select the account's transactions ordered by (created_at DESC, id DESC), and
enrich each row in memory with the account's type. -/
def getTransactions (db : DB) (callerId accountId : Nat) :
    Except Failure (List (Txn × AccountType)) :=
  match findOwned db accountId callerId with
  | none => .error (.trpc .NOT_FOUND "Account not found")
  | some account =>
    let ts := List.insertionSort txnBefore
      (db.transactions.filter (fun u => u.accountId == accountId))
    .ok (ts.map (fun t => (t, account.accountType)))

/-! ## Amount validation at the procedure boundary (lines 96-99) -/

/-- A JavaScript number as seen by the zod input schema: a finite value
(modelled exactly), NaN, or one of the two infinities. -/
inductive JsNumber
  | finite (q : ℚ)
  | nan
  | posInf
  | negInf
deriving DecidableEq

/-- JavaScript `<` on numbers: false whenever either side is NaN, with the
usual ordering on the rest. -/
def jsLt : JsNumber → JsNumber → Bool
  | .nan, _ => false
  | _, .nan => false
  | .finite x, .finite y => decide (x < y)
  | .finite _, .posInf => true
  | .finite _, .negInf => false
  | .posInf, _ => false
  | .negInf, .negInf => false
  | .negInf, _ => true

/-- The z.number().min(m) check: z.number() rejects exactly NaN (typeof is
number but its parsed type is "nan"), and the min check rejects exactly
values strictly below the minimum under JavaScript comparison.  No
finiteness check is installed (that would be the separate .finite()
refinement, absent here). -/
def zodNumberMinAccepts (minimum : ℚ) (a : JsNumber) : Bool :=
  match a with
  | .nan => false
  | _ => ! jsLt a (.finite minimum)

/-- The amount schema of fundAccount line 98: z.number().min(0.01). -/
def amountSchemaAccepts (a : JsNumber) : Bool :=
  zodNumberMinAccepts (1 / 100) a

/-- The validation gate the amount passes before the mutation body runs: a
schema rejection surfaces as a BAD_REQUEST validation error carrying the
min-check message, and nothing else runs. -/
def amountGate (a : JsNumber) : Except Failure Unit :=
  if amountSchemaAccepts a then .ok ()
  else .error (.trpc .BAD_REQUEST "Amount must be at least $0.01")

/-- fundAccount behind its amount validation, for a finite input amount (the
mutation's parseFloat of a finite number is the identity on its value): the
gate runs first, and only on acceptance does the mutation body touch the
store. -/
def fundAccountChecked (db : DB) (callerId accountId : Nat) (q : ℚ)
    (src : FundingType) (now : Nat) : Except Failure (DB × FundResult) :=
  match amountGate (.finite q) with
  | .error e => .error e
  | .ok _ => fundAccount db callerId accountId q src now

/-! ## Concurrent funding as interleaved store effects (lines 154-172) -/

/-- The two store effects of one successful funding call: inserting the
deposit row (lines 155-163) and the atomic balance increment the store
executes as one indivisible statement (lines 167-172). -/
inductive StoreAction
  | insertDeposit
  | atomicIncr (amount : ℚ)
deriving DecidableEq

/-- Whether an action is the atomic increment. -/
def isIncr : StoreAction → Bool
  | .insertDeposit => false
  | .atomicIncr _ => true

/-- Whether an action is the deposit-row insert. -/
def isInsert : StoreAction → Bool
  | .insertDeposit => true
  | .atomicIncr _ => false

/-- Effect of one atomic store action on (balance of the funded account,
number of its transaction rows). -/
def applyAction : ℚ × Nat → StoreAction → ℚ × Nat
  | (b, n), .insertDeposit => (b, n + 1)
  | (b, n), .atomicIncr q => (b + q, n)

/-- Run an interleaved trace of store actions from an initial state.  Any
interleaving of N concurrent fundAccount calls contributes its two actions
in some order; the trace is their sequence as serialized by the store. -/
def runTrace (init : ℚ × Nat) (tr : List StoreAction) : ℚ × Nat :=
  tr.foldl applyAction init

/-! ## Concrete example values used by witnesses and counterexamples -/

/-- The SQLite error raised on an account-number collision. -/
def uniqueCollisionErr : DbError :=
  { code := "SQLITE_CONSTRAINT_UNIQUE"
    message := "UNIQUE constraint failed: accounts.account_number" }

/-- Insert outcomes that collide on the first four attempts and succeed on
the fifth. -/
def insFourCollisions : Nat → InsertOutcome :=
  fun i => if i < 4 then .err uniqueCollisionErr else .ok

/-- A deterministic identifier generator for concrete runs. -/
def genSeq : Nat → String :=
  fun i => toString (1000000000 + i)

/-- A sample active checking account owned by user 7. -/
def exAccount : Account :=
  { id := 1, userId := 7, accountNumber := "1000000001"
    accountType := .checking, balance := 0, status := .active }

/-- A re-read that always finds exAccount. -/
def rereadEx : String → Option Account :=
  fun _ => some exAccount

/-- A store holding only exAccount and no transactions. -/
def exDb : DB :=
  { accounts := [exAccount], transactions := [], nextTxnId := 1 }

/-- The deposit row a one-cent funding call against exDb inserts. -/
def exCentTxn : Txn :=
  { id := 1, accountId := 1, type := "deposit", amount := 1 / 100
    description := "Funding from card", status := "completed", createdAt := 3 }

/-- The store after the one-cent funding call against exDb. -/
def exCentDb : DB :=
  { accounts := [{ exAccount with balance := 1 / 100 }]
    transactions := [exCentTxn], nextTxnId := 2 }

/-- A pre-existing deposit row of exAccount stamped at tick 5. -/
def staleTxn : Txn :=
  { id := 1, accountId := 1, type := "deposit", amount := 5
    description := "Funding from card", status := "completed", createdAt := 5 }

/-- A store where exAccount already has staleTxn. -/
def staleDb : DB :=
  { accounts := [exAccount], transactions := [staleTxn], nextTxnId := 2 }

/-- The deposit row a funding call of 25 against staleDb inserts, also
stamped at tick 5 (same store timestamp granularity). -/
def freshTxn : Txn :=
  { id := 2, accountId := 1, type := "deposit", amount := 25
    description := "Funding from card", status := "completed", createdAt := 5 }

/-- The store after that funding call against staleDb. -/
def staleDb2 : DB :=
  { accounts := [{ exAccount with balance := 25 }]
    transactions := [staleTxn, freshTxn], nextTxnId := 3 }

/-- An account owned by a different user (user 99). -/
def otherAccount : Account :=
  { id := 1, userId := 99, accountNumber := "1000000002"
    accountType := .savings, balance := 50, status := .active }

/-- A store holding only another user's account. -/
def otherDb : DB :=
  { accounts := [otherAccount], transactions := [], nextTxnId := 1 }

/-- Two deposit rows of exAccount sharing the timestamp tick 4, plus a
newer one at tick 9, in insertion order. -/
def histDb : DB :=
  { accounts := [exAccount]
    transactions :=
      [ { id := 1, accountId := 1, type := "deposit", amount := 10
          description := "Funding from card", status := "completed", createdAt := 4 }
      , { id := 2, accountId := 1, type := "deposit", amount := 20
          description := "Funding from card", status := "completed", createdAt := 4 }
      , { id := 3, accountId := 1, type := "deposit", amount := 30
          description := "Funding from bank", status := "completed", createdAt := 9 } ]
    nextTxnId := 4 }

/-- An interleaved trace of two concurrent funding calls of 10 each. -/
def wTrace : List StoreAction :=
  [.insertDeposit, .atomicIncr 10, .insertDeposit, .atomicIncr 10]

end Ledger

namespace Ledger

/-! ## Theorems -/

/-- C10: isValidLuhn first strips every non-digit character and accepts when
the Luhn sum of the remaining digits is 0 mod 10; on an input containing no
digit at all the digit string is empty, the sum is 0, and the function
returns true, so such inputs pass card validation. -/
theorem luhn_no_digits_passes (s : String) (h : ∀ c ∈ s.data, c.isDigit = false) :
    isValidLuhn s = true := by
  have hnil : stripNonDigits s = [] := by
    simp only [stripNonDigits, List.filter_eq_nil_iff]
    intro c hc
    simp [h c hc]
  simp [isValidLuhn, hnil, luhnSumAux]

/-- Witness for C10: the digit-free input "abcd" passes isValidLuhn. -/
theorem luhn_no_digits_passes_witness :
    (∀ c ∈ "abcd".data, c.isDigit = false) ∧ isValidLuhn "abcd" = true :=
  ⟨by decide, luhn_no_digits_passes "abcd" (by decide)⟩

/-- Helper: as long as every attempt up to k collides on the uniqueness
constraint, the creation loop just advances the attempt counter and burns
fuel. -/
theorem createLoopAux_skip (ins : Nat → InsertOutcome) (gen : Nat → String)
    (k : Nat) : ∀ a f, k ≤ f → (∀ i, i < k → isUniqOut (ins (a + i)) = true) →
    createLoopAux ins gen a f = createLoopAux ins gen (a + k) (f - k) := by
  induction k with
  | zero => intro a f _ _; simp
  | succ k ih =>
    intro a f hkf hu
    obtain ⟨f', rfl⟩ : ∃ f', f = f' + 1 := ⟨f - 1, by omega⟩
    have h0 : isUniqOut (ins a) = true := by simpa using hu 0 (by omega)
    cases hins : ins a with
    | ok => rw [hins] at h0; simp [isUniqOut] at h0
    | err e =>
      have he : isUniqueViolation e = true := by
        rw [hins] at h0; simpa [isUniqOut] using h0
      have hstep : createLoopAux ins gen a (f' + 1) = createLoopAux ins gen (a + 1) f' := by
        simp [createLoopAux, hins, he]
      rw [hstep]
      have hu' : ∀ i, i < k → isUniqOut (ins (a + 1 + i)) = true := by
        intro i hi
        have := hu (i + 1) (by omega)
        simpa [Nat.add_assoc, Nat.add_comm 1 i] using this
      have hrec := ih (a + 1) f' (by omega) hu'
      rw [hrec]
      have h1 : a + 1 + k = a + (k + 1) := by omega
      have h2 : f' - k = f' + 1 - (k + 1) := by omega
      rw [h1, h2]

/-- Helper: a successful creation uses at most (starting attempt + fuel)
insert attempts. -/
theorem createLoopAux_attempts_le (ins : Nat → InsertOutcome) (gen : Nat → String) :
    ∀ f a n a', createLoopAux ins gen a f = .created n a' → a' ≤ a + f := by
  intro f
  induction f with
  | zero => intro a n a' h; simp [createLoopAux] at h
  | succ f ih =>
    intro a n a' h
    rw [createLoopAux] at h
    cases hins : ins a with
    | ok =>
      rw [hins] at h
      simp at h
      omega
    | err e =>
      rw [hins] at h
      by_cases he : isUniqueViolation e = true
      · simp [he] at h
        have := ih (a + 1) n a' h
        omega
      · simp [he] at h

/-- C4: in createAccount only a caught uniqueness-constraint violation
triggers a retry with a freshly generated identifier, the loop makes at
most 5 insert attempts, after up to 4 collisions creation still succeeds on
the next attempt (the 5th at worst), and any other persistence failure is
rethrown immediately. -/
theorem create_retry_policy (t : AccountType) (ins : Nat → InsertOutcome)
    (gen : Nat → String) (reread : String → Option Account) (k : Nat)
    (hk : k ≤ 4) (hu : ∀ i, i < k → isUniqOut (ins i) = true) :
    (∀ a, ins k = .ok → reread (gen k) = some a →
      createAccount t none ins gen reread = .ok a) ∧
    (∀ e, ins k = .err e → isUniqueViolation e = false →
      createAccount t none ins gen reread = .error (.db e)) ∧
    (ins k = .ok → createLoop ins gen = .created (gen k) (k + 1)) ∧
    (∀ n a', createLoop ins gen = .created n a' → a' ≤ MAX_RETRIES) := by
  have hu0 : ∀ i, i < k → isUniqOut (ins (0 + i)) = true := by
    intro i hi; simpa using hu i hi
  have hskip : createLoopAux ins gen 0 MAX_RETRIES =
      createLoopAux ins gen k (MAX_RETRIES - k) :=  by
    simpa using createLoopAux_skip ins gen k 0 MAX_RETRIES
      (by simp [MAX_RETRIES]; omega) hu0
  obtain ⟨m, hm⟩ : ∃ m, MAX_RETRIES - k = m + 1 :=
    ⟨MAX_RETRIES - k - 1, by simp [MAX_RETRIES]; omega⟩
  refine ⟨?_, ?_, ?_, ?_⟩
  · intro a hok hre
    have hloop : createLoop ins gen = .created (gen k) (k + 1) := by
      rw [createLoop, hskip, hm, createLoopAux, hok]
    simp [createAccount, hloop, createReadBack, hre]
  · intro e herr hnu
    have hloop : createLoop ins gen = .failed e := by
      rw [createLoop, hskip, hm, createLoopAux, herr]
      simp [hnu]
    simp [createAccount, hloop]
  · intro hok
    rw [createLoop, hskip, hm, createLoopAux, hok]
  · intro n a' h
    have := createLoopAux_attempts_le ins gen MAX_RETRIES 0 n a' h
    omega

/-- Witness for C4 at four collisions followed by success on the fifth
attempt. -/
theorem create_retry_policy_witness :
    ((4 : Nat) ≤ 4 ∧ (∀ i, i < 4 → isUniqOut (insFourCollisions i) = true)) ∧
    ((∀ a, insFourCollisions 4 = .ok → rereadEx (genSeq 4) = some a →
        createAccount .checking none insFourCollisions genSeq rereadEx = .ok a) ∧
      (∀ e, insFourCollisions 4 = .err e → isUniqueViolation e = false →
        createAccount .checking none insFourCollisions genSeq rereadEx = .error (.db e)) ∧
      (insFourCollisions 4 = .ok →
        createLoop insFourCollisions genSeq = .created (genSeq 4) (4 + 1)) ∧
      (∀ n a', createLoop insFourCollisions genSeq = .created n a' → a' ≤ MAX_RETRIES)) :=
  ⟨⟨by decide, by decide⟩,
    create_retry_policy .checking insFourCollisions genSeq rereadEx 4 (by decide) (by decide)⟩

/-- C5 (amended): when every one of the five insert attempts collides,
createAccount fails with the INTERNAL_SERVER_ERROR kind — the same kind the
router uses for post-write read failures, not a distinct ResourceExhausted
kind — and the message "Failed to generate a unique account number. Please
try again.". -/
theorem create_exhaustion_internal (t : AccountType) (ins : Nat → InsertOutcome)
    (gen : Nat → String) (reread : String → Option Account)
    (hu : ∀ i, i < MAX_RETRIES → isUniqOut (ins i) = true) :
    createAccount t none ins gen reread =
      .error (.trpc .INTERNAL_SERVER_ERROR
        "Failed to generate a unique account number. Please try again.") := by
  have hu0 : ∀ i, i < MAX_RETRIES → isUniqOut (ins (0 + i)) = true := by
    intro i hi; simpa using hu i hi
  have hskip : createLoopAux ins gen 0 MAX_RETRIES =
      createLoopAux ins gen MAX_RETRIES 0 := by
    simpa using createLoopAux_skip ins gen MAX_RETRIES 0 MAX_RETRIES le_rfl hu0
  have hloop : createLoop ins gen = .exhausted := by
    rw [createLoop, hskip, createLoopAux]
  simp [createAccount, hloop]

/-- Witness for C5's amended statement: five straight collisions yield the
INTERNAL_SERVER_ERROR failure. -/
theorem create_exhaustion_internal_witness :
    (∀ i, i < MAX_RETRIES → isUniqOut ((fun _ => .err uniqueCollisionErr) i) = true) ∧
    createAccount .checking none (fun _ => .err uniqueCollisionErr) genSeq (fun _ => none) =
      .error (.trpc .INTERNAL_SERVER_ERROR
        "Failed to generate a unique account number. Please try again.") :=
  ⟨by decide,
    create_exhaustion_internal .checking (fun _ => .err uniqueCollisionErr) genSeq
      (fun _ => none) (by decide)⟩

/-- Counterexample for C5 as stated: exhausting the retry budget produces
the INTERNAL_SERVER_ERROR kind (shared with Internal post-write read
failures, hence not a distinct ResourceExhausted kind) and a message
different from "failed to generate a unique identifier". -/
theorem create_exhaustion_cx :
    createAccount .checking none (fun _ => .err uniqueCollisionErr) genSeq (fun _ => none) =
      .error (.trpc .INTERNAL_SERVER_ERROR
        "Failed to generate a unique account number. Please try again.") ∧
    createReadBack none =
      .error (.trpc .INTERNAL_SERVER_ERROR "Account created but failed to retrieve details") ∧
    "Failed to generate a unique account number. Please try again." ≠
      "failed to generate a unique identifier" :=
  ⟨rfl, rfl, by decide⟩

/-- Helper: running a trace whose increments all carry amount A adds
(number of increments) × A to the balance and (number of inserts) to the
transaction count. -/
theorem runTrace_counts (A : ℚ) : ∀ (tr : List StoreAction) (b : ℚ) (n : Nat),
    (∀ q, StoreAction.atomicIncr q ∈ tr → q = A) →
    runTrace (b, n) tr = (b + (tr.countP isIncr : ℚ) * A, n + tr.countP isInsert) := by
  intro tr
  induction tr with
  | nil => intro b n _; simp [runTrace]
  | cons a tr ih =>
    intro b n hA
    have hA' : ∀ q, StoreAction.atomicIncr q ∈ tr → q = A := by
      intro q hq; exact hA q (List.mem_cons_of_mem a hq)
    cases a with
    | insertDeposit =>
      have hrec := ih b (n + 1) hA'
      have hc : List.countP isIncr (StoreAction.insertDeposit :: tr) =
          List.countP isIncr tr := by
        simp [List.countP_cons, isIncr]
      have hd : List.countP isInsert (StoreAction.insertDeposit :: tr) =
          List.countP isInsert tr + 1 := by
        simp [List.countP_cons, isInsert]
      simp only [runTrace, List.foldl_cons, applyAction] at hrec ⊢
      rw [hrec, hc, hd]
      simp only [Prod.mk.injEq]
      exact ⟨by simp, by omega⟩
    | atomicIncr q =>
      have hq : q = A := hA q (List.mem_cons_self _ _)
      have hrec := ih (b + q) n hA'
      have hc : List.countP isIncr (StoreAction.atomicIncr q :: tr) =
          List.countP isIncr tr + 1 := by
        simp [List.countP_cons, isIncr]
      have hd : List.countP isInsert (StoreAction.atomicIncr q :: tr) =
          List.countP isInsert tr := by
        simp [List.countP_cons, isInsert]
      simp only [runTrace, List.foldl_cons, applyAction] at hrec ⊢
      rw [hrec, hc, hd, hq]
      simp only [Prod.mk.injEq]
      refine ⟨?_, by simp⟩
      push_cast
      ring

/-- C1: for any serialized interleaving of the store effects of N
concurrent funding calls of amount A each against one account — each call
contributing one deposit-row insert and one indivisible balance increment,
in any order — the final balance is exactly N × A and exactly N transaction
rows exist, starting from balance 0. -/
theorem concurrent_funding_total (N : Nat) (A : ℚ) (tr : List StoreAction)
    (hIns : tr.countP isInsert = N) (hIncr : tr.countP isIncr = N)
    (hA : ∀ q, StoreAction.atomicIncr q ∈ tr → q = A) :
    runTrace (0, 0) tr = ((N : ℚ) * A, N) := by
  rw [runTrace_counts A tr 0 0 hA, hIns, hIncr]
  simp

/-- Witness for C1: two interleaved funding calls of 10 each end at balance
20 with two transaction rows. -/
theorem concurrent_funding_total_witness :
    (wTrace.countP isInsert = 2 ∧ wTrace.countP isIncr = 2 ∧
      (∀ q, StoreAction.atomicIncr q ∈ wTrace → q = 10)) ∧
    runTrace (0, 0) wTrace = ((2 : ℚ) * 10, 2) := by
  have hA : ∀ q : ℚ, StoreAction.atomicIncr q ∈ wTrace → q = 10 := by
    intro q hq
    simp [wTrace] at hq
    exact hq
  exact ⟨⟨by decide, by decide, hA⟩,
    concurrent_funding_total 2 10 wTrace (by decide) (by decide) hA⟩

/-- C2 (code evaluated at the failing input): a funding call of one cent —
0.01, as the spec's amount floor demands — persists a transaction row whose
amount is the fractional dollar value 1/100, not an integer count of minor
units, and the account balance likewise becomes the fractional dollar value
1/100; amounts flow through as raw dollar numbers end-to-end. -/
theorem fund_stores_fractional_dollars :
    fundAccount exDb 7 1 (1 / 100) .card 3 =
      .ok (exCentDb, { transaction := some exCentTxn, newBalance := 1 / 100 }) ∧
    exCentTxn.amount = 1 / 100 ∧ exCentTxn.amount.den ≠ 1 ∧
    ({ exAccount with balance := 1 / 100 } : Account).balance.den ≠ 1 := by
  refine ⟨?_, rfl, by norm_num [exCentTxn], by norm_num⟩
  simp [fundAccount, findOwned, findById, mostRecentTxn, pickRecent, mkDepositTxn, fundReturn,
    exDb, exAccount, exCentDb, exCentTxn, FundingType.str, Except.map]

/-- C3 (code evaluated at the failing input): when the post-increment
re-read of the account finds no row, fundAccount still reports success and
substitutes the synthetic balance 0 instead of surfacing an Internal-kind
error; only createAccount's read-back surfaces INTERNAL_SERVER_ERROR. -/
theorem fund_postwrite_read_failure_returns_zero :
    fundReturn none (some staleTxn) =
      .ok { transaction := some staleTxn, newBalance := 0 } ∧
    (∀ f : Failure, fundReturn none (some staleTxn) ≠ .error f) ∧
    createReadBack none =
      .error (.trpc .INTERNAL_SERVER_ERROR "Account created but failed to retrieve details") :=
  ⟨rfl, fun _ h => by simp [fundReturn] at h, rfl⟩

/-- Counterexample for C7 as stated: the amount schema z.number().min(0.01)
accepts positive Infinity — z.number() rejects only NaN and the min check
only rejects values strictly below the minimum — so a non-finite amount is
not rejected and reaches the mutation body, which performs no amount check
of its own. -/
theorem amount_validation_infinity_cx :
    amountSchemaAccepts JsNumber.posInf = true ∧
    amountGate JsNumber.posInf = .ok () :=
  ⟨rfl, rfl⟩

/-- C7 (amended): the amount validation runs before the mutation body and
rejects — with the BAD_REQUEST validation error, before any transaction
insert or balance change — every amount strictly below 0.01, hence every
non-positive amount, as well as NaN and negative Infinity; 0.01 itself is
accepted; positive Infinity, however, is not rejected. -/
theorem amount_validation_amended (q : ℚ) (db : DB) (callerId accountId : Nat)
    (src : FundingType) (now : Nat) (hq : q ≤ 0) :
    amountGate (.finite (1 / 100)) = .ok () ∧
    amountGate (.finite q) = .error (.trpc .BAD_REQUEST "Amount must be at least $0.01") ∧
    fundAccountChecked db callerId accountId q src now =
      .error (.trpc .BAD_REQUEST "Amount must be at least $0.01") ∧
    amountGate .nan = .error (.trpc .BAD_REQUEST "Amount must be at least $0.01") ∧
    amountGate .negInf = .error (.trpc .BAD_REQUEST "Amount must be at least $0.01") ∧
    amountGate .posInf = .ok () := by
  have hlt : q < 1 / 100 := lt_of_le_of_lt hq (by norm_num)
  have hacc : amountSchemaAccepts (.finite q) = false := by
    simp only [amountSchemaAccepts, zodNumberMinAccepts, jsLt, Bool.not_eq_false']
    exact decide_eq_true hlt
  have hgate : amountGate (.finite q) =
      .error (.trpc .BAD_REQUEST "Amount must be at least $0.01") := by
    simp [amountGate, hacc]
  have haccFloor : amountSchemaAccepts (.finite (1 / 100)) = true := by
    simp only [amountSchemaAccepts, zodNumberMinAccepts, jsLt, Bool.not_eq_true']
    exact decide_eq_false (lt_irrefl _)
  have hfloor : amountGate (.finite (1 / 100)) = .ok () := by
    unfold amountGate
    rw [haccFloor]
    simp
  refine ⟨hfloor, hgate, ?_, rfl, rfl, rfl⟩
  simp [fundAccountChecked, hgate]

/-- Witness for C7's amended statement at amount 0. -/
theorem amount_validation_amended_witness :
    ((0 : ℚ) ≤ 0) ∧
    (amountGate (.finite (1 / 100)) = .ok () ∧
      amountGate (.finite 0) = .error (.trpc .BAD_REQUEST "Amount must be at least $0.01") ∧
      fundAccountChecked exDb 7 1 0 .card 3 =
        .error (.trpc .BAD_REQUEST "Amount must be at least $0.01") ∧
      amountGate .nan = .error (.trpc .BAD_REQUEST "Amount must be at least $0.01") ∧
      amountGate .negInf = .error (.trpc .BAD_REQUEST "Amount must be at least $0.01") ∧
      amountGate .posInf = .ok ()) :=
  ⟨le_refl 0, amount_validation_amended 0 exDb 7 1 .card 3 (le_refl 0)⟩

/-- Helper: whatever the ORDER BY created_at DESC LIMIT 1 scan returns came
from the scanned rows or was the row already picked. -/
theorem foldl_pickRecent_mem : ∀ (ts : List Txn) (acc : Option Txn) (u : Txn),
    ts.foldl pickRecent acc = some u → u ∈ ts ∨ acc = some u := by
  intro ts
  induction ts with
  | nil =>
    intro acc u h
    right
    simpa using h
  | cons t ts ih =>
    intro acc u h
    rw [List.foldl_cons] at h
    rcases ih (pickRecent acc t) u h with hm | he
    · exact Or.inl (List.mem_cons_of_mem _ hm)
    · cases acc with
      | none =>
        have ht : t = u := by simpa [pickRecent] using he
        exact Or.inl (ht ▸ List.mem_cons_self _ _)
      | some b =>
        by_cases hbt : b.createdAt < t.createdAt
        · have ht : t = u := by simpa [pickRecent, hbt] using he
          exact Or.inl (ht ▸ List.mem_cons_self _ _)
        · have hb : b = u := by simpa [pickRecent, hbt] using he
          exact Or.inr (by rw [hb])

/-- Helper: when a row is strictly newer than every scanned row, the ORDER
BY created_at DESC LIMIT 1 scan over the rows followed by that row returns
exactly that row. -/
theorem mostRecentTxn_append_strict (ts : List Txn) (t : Txn)
    (h : ∀ u ∈ ts, u.createdAt < t.createdAt) :
    mostRecentTxn (ts ++ [t]) = some t := by
  unfold mostRecentTxn
  rw [List.foldl_append, List.foldl_cons, List.foldl_nil]
  cases hm : ts.foldl pickRecent none with
  | none => simp [pickRecent]
  | some b =>
    have hb : b ∈ ts := by
      rcases foldl_pickRecent_mem ts none b hm with h1 | h2
      · exact h1
      · simp at h2
    simp [pickRecent, h b hb]

/-- Helper: the atomic-increment update rewrites the first row matching the
account id, so a re-read by id after the update sees that row with its
balance increased. -/
theorem find?_balance_map (l : List Account) (aid : Nat) (amt : ℚ) (a : Account)
    (h : l.find? (fun x => x.id == aid) = some a) :
    (l.map (fun x => if x.id == aid then { x with balance := x.balance + amt } else x)).find?
      (fun x => x.id == aid) = some { a with balance := a.balance + amt } := by
  induction l with
  | nil => simp at h
  | cons b l ih =>
    rw [List.map_cons]
    by_cases hb : (b.id == aid) = true
    · have hab : b = a := by
        have h' : some b = some a := by simpa [List.find?_cons, hb] using h
        exact Option.some.inj h'
      subst hab
      rw [if_pos hb]
      simp [List.find?_cons, hb]
    · have hbf : (b.id == aid) = false := by simpa using hb
      have hrest : l.find? (fun x => x.id == aid) = some a := by
        simpa [List.find?_cons, hbf] using h
      rw [if_neg hb]
      simpa [List.find?_cons, hbf] using ih hrest

/-- C6 (amended): a successful fundAccount call returns the account's most
recent transaction by createdAt; whenever the just-inserted transaction's
createdAt is strictly greater than that of every existing transaction of
the account, this is exactly the transaction inserted by the call, and the
returned balance is the account's balance re-read after the call's atomic
increment. -/
theorem fund_returns_inserted_when_newest (db : DB) (cid aid : Nat) (amt : ℚ)
    (src : FundingType) (now : Nat) (account : Account)
    (hown : findOwned db aid cid = some account)
    (hact : account.status = .active)
    (hid : findById db aid = some account)
    (hnew : ∀ u ∈ db.transactions, u.accountId = aid → u.createdAt < now) :
    ∃ db2, fundAccount db cid aid amt src now =
      .ok (db2, { transaction := some (mkDepositTxn db aid amt src now),
                  newBalance := account.balance + amt }) := by
  have hupd : (db.accounts.map (fun a =>
      if a.id == aid then { a with balance := a.balance + amt } else a)).find?
      (fun a => a.id == aid) = some { account with balance := account.balance + amt } := by
    exact find?_balance_map db.accounts aid amt account (by simpa [findById] using hid)
  have hfilt : (([mkDepositTxn db aid amt src now] : List Txn).filter
      (fun u => u.accountId == aid)) = [mkDepositTxn db aid amt src now] := by
    simp [mkDepositTxn]
  have hrec : mostRecentTxn ((db.transactions ++ [mkDepositTxn db aid amt src now]).filter
      (fun u => u.accountId == aid)) = some (mkDepositTxn db aid amt src now) := by
    rw [List.filter_append, hfilt]
    apply mostRecentTxn_append_strict
    intro u hu
    have hmem := List.mem_filter.mp hu
    exact hnew u hmem.1 (by simpa using hmem.2)
  refine ⟨{ accounts := db.accounts.map (fun a =>
              if a.id == aid then { a with balance := a.balance + amt } else a)
            transactions := db.transactions ++ [mkDepositTxn db aid amt src now]
            nextTxnId := db.nextTxnId + 1 }, ?_⟩
  unfold fundAccount
  rw [hown]
  simp only [hact]
  rw [if_neg (by simp)]
  simp only [findById, fundReturn, Except.map]
  rw [hupd, hrec]
  rfl

/-- Witness for C6's amended statement: funding exAccount (no prior
transactions) at tick 3 returns the freshly inserted one-cent deposit and
the incremented balance. -/
theorem fund_returns_inserted_when_newest_witness :
    (findOwned exDb 1 7 = some exAccount ∧ exAccount.status = .active ∧
      findById exDb 1 = some exAccount ∧
      (∀ u ∈ exDb.transactions, u.accountId = 1 → u.createdAt < 3)) ∧
    ∃ db2, fundAccount exDb 7 1 (1 / 100) .card 3 =
      .ok (db2, { transaction := some (mkDepositTxn exDb 1 (1 / 100) .card 3),
                  newBalance := exAccount.balance + 1 / 100 }) :=
  ⟨⟨rfl, rfl, rfl, by simp [exDb]⟩,
    fund_returns_inserted_when_newest exDb 7 1 (1 / 100) .card 3 exAccount rfl rfl rfl
      (by simp [exDb])⟩

/-- Counterexample for C6 as stated: against a store where the account
already has a transaction in the same timestamp tick, the funding call
inserts freshTxn (= mkDepositTxn staleDb 1 25 .card 5) but returns
staleTxn, a different, pre-existing transaction. -/
theorem fund_returns_stale_txn_cx :
    fundAccount staleDb 7 1 25 .card 5 =
      .ok (staleDb2, { transaction := some staleTxn, newBalance := 25 }) ∧
    freshTxn = mkDepositTxn staleDb 1 25 .card 5 ∧
    staleTxn ≠ freshTxn := by
  refine ⟨?_, rfl, by decide⟩
  simp [fundAccount, findOwned, findById, mostRecentTxn, pickRecent, mkDepositTxn, fundReturn,
    staleDb, staleDb2, staleTxn, freshTxn, exAccount, FundingType.str, Except.map]

/-- C8: for an account owned by the caller, getTransactions returns exactly
the account's transactions (as a permutation of the store's rows for that
account), ordered so that each row is followed only by rows with a strictly
older timestamp or the same timestamp and a smaller-or-equal id, each
enriched with the account's type. -/
theorem getTransactions_ordered (db : DB) (cid aid : Nat) (account : Account)
    (hown : findOwned db aid cid = some account) :
    ∃ r, getTransactions db cid aid = .ok r ∧
      (r.map Prod.fst).Perm (db.transactions.filter (fun u => u.accountId == aid)) ∧
      (r.map Prod.fst).Pairwise txnBefore ∧
      ∀ p ∈ r, p.2 = account.accountType := by
  refine ⟨(List.insertionSort txnBefore
      (db.transactions.filter (fun u => u.accountId == aid))).map
      (fun t => (t, account.accountType)), ?_, ?_, ?_, ?_⟩
  · unfold getTransactions
    rw [hown]
  · rw [List.map_map]
    have hcomp : Prod.fst ∘ (fun t : Txn => (t, account.accountType)) = id := rfl
    rw [hcomp, List.map_id]
    exact List.perm_insertionSort txnBefore _
  · rw [List.map_map]
    have hcomp : Prod.fst ∘ (fun t : Txn => (t, account.accountType)) = id := rfl
    rw [hcomp, List.map_id]
    exact List.sorted_insertionSort txnBefore _
  · intro p hp
    rcases List.mem_map.mp hp with ⟨t, _, rfl⟩
    rfl

/-- Witness for C8 on a history holding two same-tick transactions and a
newer one. -/
theorem getTransactions_ordered_witness :
    findOwned histDb 1 7 = some exAccount ∧
    ∃ r, getTransactions histDb 7 1 = .ok r ∧
      (r.map Prod.fst).Perm (histDb.transactions.filter (fun u => u.accountId == 1)) ∧
      (r.map Prod.fst).Pairwise txnBefore ∧
      ∀ p ∈ r, p.2 = exAccount.accountType :=
  ⟨rfl, getTransactions_ordered histDb 7 1 exAccount rfl⟩

/-- C9: when no stored account has both the requested id and the caller's
user id — the account does not exist, or belongs to another user — both
fundAccount and getTransactions fail with the same NOT_FOUND error ("Account
not found"), so the two situations are indistinguishable to the caller and
no Forbidden-style response leaks the account's existence. -/
theorem notfound_for_unowned (db : DB) (cid aid : Nat) (amt : ℚ)
    (src : FundingType) (now : Nat)
    (h : ∀ a ∈ db.accounts, ¬(a.id = aid ∧ a.userId = cid)) :
    fundAccount db cid aid amt src now = .error (.trpc .NOT_FOUND "Account not found") ∧
    getTransactions db cid aid = .error (.trpc .NOT_FOUND "Account not found") := by
  have hnone : findOwned db aid cid = none := by
    unfold findOwned
    rw [List.find?_eq_none]
    intro a ha
    simp only [Bool.and_eq_true, beq_iff_eq]
    exact fun hc => h a ha ⟨hc.1, hc.2⟩
  constructor
  · unfold fundAccount
    rw [hnone]
  · unfold getTransactions
    rw [hnone]

/-- Witness for C9: user 7 probing account id 1, which exists but belongs
to user 99, gets NOT_FOUND from both operations. -/
theorem notfound_for_unowned_witness :
    (∀ a ∈ otherDb.accounts, ¬(a.id = 1 ∧ a.userId = 7)) ∧
    (fundAccount otherDb 7 1 10 .card 3 = .error (.trpc .NOT_FOUND "Account not found") ∧
      getTransactions otherDb 7 1 = .error (.trpc .NOT_FOUND "Account not found")) :=
  ⟨by decide, notfound_for_unowned otherDb 7 1 10 .card 3 (by decide)⟩

end Ledger
